import Mathlib

/-!
Verification of the btrfs sysfs glue layer (`fs/btrfs/sysfs.c`) against its
design document.  The C code is shallowly embedded: `ssize_t` return values
become `Int` (negative errno on failure), kernel pointers become `Option Nat`
node identifiers in an explicit registry state, and the parts of the kobject
core that live outside this file's sources (kref counting, `kset` membership,
`kobject_init_and_add` publication) are modelled from the design document,
with each such definition marked in its doc comment.
-/

namespace BtrfsSysfs

/-- errno value EIO (5); the C dispatch functions return `-EIO`. -/
def EIO_errno : Int := 5

/-- errno value EINVAL (22); `btrfs_static_init_sysfs` returns `-EINVAL`. -/
def EINVAL_errno : Int := 22

/-- errno value ENOMEM (12); `btrfs_init_sysfs` returns `-ENOMEM` when the
kset cannot be created. -/
def ENOMEM_errno : Int := 12

/-- struct btrfs_kobject (sysfs.c:43-46): the embedded kobject (its name and
reference count) together with the opaque payload pointer `ptr`.
`kzalloc` zeroes the structure, so a fresh node's payload is `none`. -/
structure BtrfsKobject where
  name : String
  refcount : Nat
  ptr : Option Nat
deriving Repr, DecidableEq

/-- type of a `show` callback (sysfs.c:61-62): reads the node, returns the
`ssize_t` result and the (possibly updated) node. -/
def ShowCb : Type := BtrfsKobject → Int × BtrfsKobject

/-- type of a `store` callback (sysfs.c:63-64): receives the buffer and its
length, returns the `ssize_t` result and the (possibly updated) node. -/
def StoreCb : Type := BtrfsKobject → String → Nat → Int × BtrfsKobject

/-- struct btrfs_kobject_attr (sysfs.c:59-65): attribute name and mode plus
the two optional callbacks (`NULL` pointers become `none`). -/
structure BtrfsKobjectAttr where
  name : String
  mode : Nat
  show_cb : Option ShowCb
  store_cb : Option StoreCb

/-- BTRFS_ATTR macro (sysfs.c:174-175): plain structure construction via
`__ATTR`; the source performs no validation of any kind here. -/
def BTRFS_ATTR (n : String) (mode : Nat) (s : Option ShowCb)
    (st : Option StoreCb) : BtrfsKobjectAttr :=
  { name := n, mode := mode, show_cb := s, store_cb := st }

/-- btrfs_kobject_attr_show (sysfs.c:91-104): if the attribute's `show`
callback is absent return `-EIO`, otherwise invoke it and return its result
verbatim.  The third component instruments the dispatch with the number of
domain-callback invocations it performed (0 or 1 in the source). -/
def btrfs_kobject_attr_show (kobj : BtrfsKobject) (attr : BtrfsKobjectAttr) :
    Int × BtrfsKobject × Nat :=
  match attr.show_cb with
  | none => (-EIO_errno, kobj, 0)
  | some f => ((f kobj).1, (f kobj).2, 1)

/-- btrfs_kobject_attr_store (sysfs.c:76-89): if the attribute's `store`
callback is absent return `-EIO`, otherwise invoke it and return its result
verbatim.  The third component counts domain-callback invocations. -/
def btrfs_kobject_attr_store (kobj : BtrfsKobject) (attr : BtrfsKobjectAttr)
    (buf : String) (len : Nat) : Int × BtrfsKobject × Nat :=
  match attr.store_cb with
  | none => (-EIO_errno, kobj, 0)
  | some f => ((f kobj buf len).1, (f kobj buf len).2, 1)

/-- struct kobj_type (sysfs.c:251-298): every ktype in the source uses the
same `btrfs_sysfs_ops` and `btrfs_kobject_release`, so only the attribute
list varies and is recorded here. -/
structure KobjType where
  default_attrs : List BtrfsKobjectAttr

/-- BTRFS_ATTR(num_devices,0444,NULL,NULL) (sysfs.c:245). -/
def btrfs_attr_num_devices : BtrfsKobjectAttr := BTRFS_ATTR "num_devices" 0o444 none none

/-- BTRFS_ATTR(dummy,0444,NULL,NULL) (sysfs.c:262). -/
def btrfs_attr_dummy : BtrfsKobjectAttr := BTRFS_ATTR "dummy" 0o444 none none

/-- BTRFS_ATTR(dummy1,0444,NULL,NULL) (sysfs.c:278). -/
def btrfs_attr_dummy1 : BtrfsKobjectAttr := BTRFS_ATTR "dummy1" 0o444 none none

/-- BTRFS_ATTR(label,0444,NULL,NULL) (sysfs.c:289). -/
def btrfs_attr_label : BtrfsKobjectAttr := BTRFS_ATTR "label" 0o444 none none

/-- btrfs_ktype_info (sysfs.c:251-255). -/
def btrfs_ktype_info : KobjType := ⟨[btrfs_attr_num_devices]⟩

/-- btrfs_ktype_health (sysfs.c:267-271). -/
def btrfs_ktype_health : KobjType := ⟨[btrfs_attr_dummy]⟩

/-- btrfs_ktype_devices (sysfs.c:283-287). -/
def btrfs_ktype_devices : KobjType := ⟨[btrfs_attr_dummy1]⟩

/-- btrfs_ktype_device (sysfs.c:294-298). -/
def btrfs_ktype_device : KobjType := ⟨[btrfs_attr_label]⟩

/-- duplicate-name check used by the specification-side validator. -/
def namesNodup : List String → Bool
  | [] => true
  | x :: xs => !(xs.contains x) && namesNodup xs

/-- a mode whose write permission bits (0222) are set is ReadWrite. -/
def attrIsReadWrite (a : BtrfsKobjectAttr) : Bool := (a.mode &&& 0o222) != 0

/-- Modelled from the spec: the declaration-time NodeType validation the
design document requires — attribute names unique, and every ReadWrite
attribute has a `store` callback.  Stated as a separate definition so it can
be compared with the source's `BTRFS_ATTR`/ktype construction, which
performs no such check. -/
def spec_nodeTypeValid (t : KobjType) : Bool :=
  namesNodup (t.default_attrs.map (fun a => a.name)) &&
    t.default_attrs.all (fun a => !attrIsReadWrite a || a.store_cb.isSome)

/-- one node of the registry tree: its embedded btrfs_kobject, its ktype and
its parent link (`none` for a root or a detached node). -/
structure Node where
  kobj : BtrfsKobject
  ktype : KobjType
  parent : Option Nat

/-- the registry state: all live nodes keyed by identifier, the identifiers
placed under the top-level kset (`/sys/fs/btrfs`), the identifiers on which
the ktype release callback has fired (in order), whether the kset itself is
registered, and the next fresh identifier. -/
structure Registry where
  nodes : List (Nat × Node)
  roots : List Nat
  released : List Nat
  ksetRegistered : Bool
  nextId : Nat

/-- the empty registry before `btrfs_init_sysfs` runs. -/
def Registry.empty : Registry :=
  { nodes := [], roots := [], released := [], ksetRegistered := false, nextId := 0 }

/-- look a node up by identifier. -/
def Registry.find (reg : Registry) (id : Nat) : Option Node :=
  (reg.nodes.find? (fun p => p.1 == id)).map (fun p => p.2)

/-- identifiers of the children of a node: nodes whose parent link points at
it. -/
def Registry.childrenOf (reg : Registry) (pid : Nat) : List Nat :=
  (reg.nodes.filter (fun p => p.2.parent == some pid)).map (fun p => p.1)

/-- Modelled from the spec: `kobject_init_and_add` (kobject core plus the
external renderer's publish step, §6 — not among the sources).  The publish
outcome is an oracle argument.  On success the node is linked (refcount 1,
payload zeroed, under the kset when parentless) and published atomically;
on failure nothing is linked and a negative errno is returned. -/
def kobject_init_and_add (n : String) (ktype : KobjType) (parent : Option Nat)
    (publishOk : Bool) (reg : Registry) : Int × Option Nat × Registry :=
  if publishOk then
    let id := reg.nextId
    let node : Node := ⟨⟨n, 1, none⟩, ktype, parent⟩
    (0, some id,
      { reg with
        nodes := (id, node) :: reg.nodes
        roots := match parent with
          | none => id :: reg.roots
          | some _ => reg.roots
        nextId := id + 1 })
  else
    (-EINVAL_errno, none, reg)

/-- btrfs_kobject_create (sysfs.c:304-339): allocate, pick the kset (no
parent) or the parent kobject, then `kobject_init_and_add`.  On failure the
source calls `kobject_put` on the never-linked kobject; Modelled from the
spec (§4.2): that rollback frees the storage without invoking the NodeType
release callback and leaves the registry untouched.  Allocation itself is
assumed to succeed (`kzalloc` failure is the other NULL return, not the
publish-failure path the claims are about). -/
def btrfs_kobject_create (n : String) (ktype : KobjType) (parent : Option Nat)
    (publishOk : Bool) (reg : Registry) : Option Nat × Registry :=
  let r := kobject_init_and_add n ktype parent publishOk reg
  if r.1 ≠ 0 then
    (none, reg)
  else
    (r.2.1, r.2.2)

/-- detachment of a child when node `id` is finalized: a node whose parent
link points at `id` loses that link and nothing else. -/
def detachChild (id : Nat) (p : Nat × Node) : Nat × Node :=
  if p.2.parent == some id then (p.1, { p.2 with parent := none }) else p

/-- btrfs_kobject_destroy (sysfs.c:341-345): `kobject_put`.  The refcount
drop, release-at-zero and child handling are kobject core, Modelled from the
spec (§4.2): decrement the refcount; when it reaches zero fire the release
callback exactly once, remove the node from the registry and from the kset,
and detach its children (they lose their parent link, nothing more). -/
def btrfs_kobject_destroy (id : Nat) (reg : Registry) : Registry :=
  match reg.find id with
  | none => reg
  | some node =>
    if node.kobj.refcount ≤ 1 then
      { reg with
        nodes := (reg.nodes.filter (fun p => p.1 != id)).map (detachChild id)
        roots := reg.roots.filter (fun r => r != id)
        released := reg.released ++ [id] }
    else
      { reg with
        nodes := reg.nodes.map (fun p =>
          if p.1 == id then
            (p.1, { p.2 with kobj := { p.2.kobj with refcount := p.2.kobj.refcount - 1 } })
          else p) }

/-- destruction through a nullable static pointer (the failure labels of
`btrfs_static_init_sysfs` call `btrfs_kobject_destroy` on the handle of the
creation that just failed, i.e. on NULL); `kobject_put` ignores a NULL
kobject, so the call is a no-op. -/
def btrfs_kobject_destroy_opt : Option Nat → Registry → Registry
  | none, reg => reg
  | some id, reg => btrfs_kobject_destroy id reg

/-- btrfs_static_init_sysfs (sysfs.c:355-376), with the goto error labels
reproduced exactly as written: `btrfs_info_error` destroys `btrfs_info` and
falls through to `btrfs_health_error`, which destroys `btrfs_health` and
falls through to `btrfs_devices_error`, which returns `-EINVAL`.  The handle
destroyed first at each label is the one whose creation just failed (NULL at
that point). -/
def btrfs_static_init_sysfs (pubDevices pubHealth pubInfo : Bool)
    (reg : Registry) : Int × Registry :=
  let rdev := btrfs_kobject_create "devices" btrfs_ktype_devices none pubDevices reg
  if rdev.1.isNone then
    (-EINVAL_errno, rdev.2)
  else
    let rhealth := btrfs_kobject_create "health" btrfs_ktype_health none pubHealth rdev.2
    if rhealth.1.isNone then
      (-EINVAL_errno, btrfs_kobject_destroy_opt rhealth.1 rhealth.2)
    else
      let rinfo := btrfs_kobject_create "info" btrfs_ktype_info none pubInfo rhealth.2
      if rinfo.1.isNone then
        (-EINVAL_errno,
          btrfs_kobject_destroy_opt rhealth.1 (btrfs_kobject_destroy_opt rinfo.1 rinfo.2))
      else
        (0, rinfo.2)

/-- btrfs_init_sysfs (sysfs.c:378-385): create and add the `btrfs` kset
(outcome given by the oracle `ksetOk`; `kset_create_and_add` is kernel core,
Modelled from the spec as mere registration of the top-level container),
returning `-ENOMEM` when that fails, then run the static bootstrap.  Note
the source does not unregister the kset when the bootstrap fails. -/
def btrfs_init_sysfs (ksetOk pubDevices pubHealth pubInfo : Bool) : Int × Registry :=
  if !ksetOk then
    (-ENOMEM_errno, Registry.empty)
  else
    btrfs_static_init_sysfs pubDevices pubHealth pubInfo
      { Registry.empty with ksetRegistered := true }

/-- btrfs_create_device (sysfs.c:391-408): calls `kobject_init_and_add` for
the device under the `devices` directory, DISCARDS its return value and
returns 0; the `btrfs_device_error` label returning `-EINVAL` is not the
target of any goto (all are commented out) and is unreachable. -/
def btrfs_create_device (label : String) (devicesId : Nat) (publishOk : Bool)
    (reg : Registry) : Int × Registry :=
  let r := kobject_init_and_add label btrfs_ktype_device (some devicesId) publishOk reg
  (0, r.2.2)

/-- one operation of a node's reference-count lifecycle: `get` acquires an
additional handle, `put` drops one (`btrfs_kobject_destroy` is a `put`). -/
inductive KrefOp where
  | get : KrefOp
  | put : KrefOp
deriving Repr, DecidableEq

/-- Modelled from the spec: one step of the kobject core's reference
counting (kref, not among the sources; §3 lifecycle).  The state is
`(refcount, number of release invocations)`; an operation on a node whose
refcount already reached zero (Destroyed) is invalid and yields `none`;
dropping the last reference fires the ktype release callback. -/
def krefStep : Option (Nat × Nat) → KrefOp → Option (Nat × Nat)
  | none, _ => none
  | some (0, _), _ => none
  | some (rc + 1, rel), KrefOp.get => some (rc + 2, rel)
  | some (1, rel), KrefOp.put => some (0, rel + 1)
  | some (rc + 2, rel), KrefOp.put => some (rc + 1, rel)

/-- run a lifecycle from creation (refcount 1, no release fired yet). -/
def runKref (ops : List KrefOp) : Option (Nat × Nat) :=
  ops.foldl krefStep (some (1, 0))

/-- number of occurrences of one operation in a lifecycle. -/
def countOp (op : KrefOp) : List KrefOp → Nat
  | [] => 0
  | x :: xs => (if x = op then 1 else 0) + countOp op xs

theorem countOp_append (op : KrefOp) (l1 l2 : List KrefOp) :
    countOp op (l1 ++ l2) = countOp op l1 + countOp op l2 := by
  induction l1 with
  | nil => simp [countOp]
  | cons x xs ih => simp [countOp, ih]; omega

theorem runKref_append_singleton (ops : List KrefOp) (op : KrefOp) :
    runKref (ops ++ [op]) = krefStep (runKref ops) op := by
  simp [runKref, List.foldl_append]

/-- refcount/release invariant of a valid lifecycle: the live refcount plus
the drops performed equals one (creation) plus the acquisitions, and the
release callback has fired exactly when the refcount is zero. -/
theorem runKref_invariant (ops : List KrefOp) (rc rel : Nat)
    (h : runKref ops = some (rc, rel)) :
    rc + countOp KrefOp.put ops = 1 + countOp KrefOp.get ops ∧
      rel = (if rc = 0 then 1 else 0) := by
  induction ops using List.reverseRecOn generalizing rc rel with
  | nil =>
    simp [runKref] at h
    obtain ⟨h1, h2⟩ := h
    subst h1; subst h2
    simp [countOp]
  | append_singleton l op ih =>
    rw [runKref_append_singleton] at h
    match hl : runKref l with
    | none => rw [hl] at h; simp [krefStep] at h
    | some (rc', rel') =>
      rw [hl] at h
      obtain ⟨hcount, hrel⟩ := ih rc' rel' hl
      match rc', op with
      | 0, _ => simp [krefStep] at h
      | n + 1, KrefOp.get =>
        simp [krefStep] at h
        obtain ⟨h1, h2⟩ := h
        subst h1; subst h2
        constructor
        · simp [countOp_append, countOp] at hcount ⊢; omega
        · simp at hrel; simpa using hrel
      | 1, KrefOp.put =>
        simp [krefStep] at h
        obtain ⟨h1, h2⟩ := h
        subst h1; subst h2
        constructor
        · simp [countOp_append, countOp] at hcount ⊢; omega
        · simp at hrel; simp [hrel]
      | n + 2, KrefOp.put =>
        simp [krefStep] at h
        obtain ⟨h1, h2⟩ := h
        subst h1; subst h2
        constructor
        · simp [countOp_append, countOp] at hcount ⊢; omega
        · simp at hrel; simpa using hrel

/-- C5: for every valid sequence of create/acquire/destroy operations on a
single node, the ktype release callback fires at most once; it has fired
exactly when the number of reference drops equals one (the creating
reference) plus the number of acquisitions; when it fires the refcount is
zero; and once the refcount is zero the node is Destroyed — any further
operation is invalid. -/
theorem btrfs_kobject_release_exactly_once (ops : List KrefOp) (rc rel : Nat)
    (h : runKref ops = some (rc, rel)) :
    rel ≤ 1 ∧
      (rel = 1 ↔ countOp KrefOp.put ops = 1 + countOp KrefOp.get ops) ∧
      (rel = 1 → rc = 0) ∧
      (rc = 0 → ∀ op, runKref (ops ++ [op]) = none) := by
  obtain ⟨hcount, hrel⟩ := runKref_invariant ops rc rel h
  refine ⟨?_, ⟨?_, ?_⟩, ?_, ?_⟩
  · by_cases hrc : rc = 0 <;> simp [hrc] at hrel <;> omega
  · intro h1
    by_cases hrc : rc = 0
    · subst hrc; omega
    · simp [hrc] at hrel; omega
  · intro hc
    by_cases hrc : rc = 0
    · simp [hrc] at hrel; omega
    · omega
  · intro h1
    by_cases hrc : rc = 0 <;> simp [hrc] at hrel <;> omega
  · intro hrc op
    subst hrc
    rw [runKref_append_singleton, h]
    simp [krefStep]

/-- witness for C5 at the lifecycle [get, put, put]: one acquisition and two
drops balance the creating reference, release fires once, and nothing more
is valid afterwards. -/
theorem btrfs_kobject_release_exactly_once_witness :
    (1 : Nat) ≤ 1 ∧
      ((1 : Nat) = 1 ↔
        countOp KrefOp.put [KrefOp.get, KrefOp.put, KrefOp.put] =
          1 + countOp KrefOp.get [KrefOp.get, KrefOp.put, KrefOp.put]) ∧
      ((1 : Nat) = 1 → (0 : Nat) = 0) ∧
      ((0 : Nat) = 0 → ∀ op,
        runKref ([KrefOp.get, KrefOp.put, KrefOp.put] ++ [op]) = none) :=
  btrfs_kobject_release_exactly_once [KrefOp.get, KrefOp.put, KrefOp.put] 0 1 (by decide)

/-- C2: when the external renderer's publish step fails, `create` rolls back
completely — it returns a failure value (`none`), the node reaches neither
the roots nor any parent's children (the node store is unchanged), and the
ktype release callback is not invoked. -/
theorem btrfs_kobject_create_publish_failure_rolls_back (n : String)
    (ktype : KobjType) (parent : Option Nat) (reg : Registry) :
    (btrfs_kobject_create n ktype parent false reg).1 = none ∧
      (btrfs_kobject_create n ktype parent false reg).2.nodes = reg.nodes ∧
      (btrfs_kobject_create n ktype parent false reg).2.roots = reg.roots ∧
      (btrfs_kobject_create n ktype parent false reg).2.released = reg.released := by
  simp [btrfs_kobject_create, kobject_init_and_add, EINVAL_errno]

/-- C3 counterexample: on the source's own attribute `num_devices` (which
has neither callback), a read and a write fail with the SAME error value
`-EIO` — the two failures are not distinct errors as the claim states. -/
theorem btrfs_attr_missing_callback_same_error_counterexample :
    (btrfs_kobject_attr_show ⟨"info", 1, none⟩ btrfs_attr_num_devices).1 = -EIO_errno ∧
      (btrfs_kobject_attr_store ⟨"info", 1, none⟩ btrfs_attr_num_devices "1" 1).1 = -EIO_errno ∧
      (btrfs_kobject_attr_show ⟨"info", 1, none⟩ btrfs_attr_num_devices).1 =
        (btrfs_kobject_attr_store ⟨"info", 1, none⟩ btrfs_attr_num_devices "1" 1).1 :=
  ⟨rfl, rfl, rfl⟩

/-- C3 amended: a read on an attribute whose `show` callback is absent and a
write on an attribute whose `store` callback is absent both fail with the
same error value `-EIO`, no domain callback runs, and the node and its
payload are left unchanged. -/
theorem btrfs_attr_missing_callback_fails_eio (kobj : BtrfsKobject)
    (attr : BtrfsKobjectAttr) (buf : String) (len : Nat) :
    (attr.show_cb = none →
      btrfs_kobject_attr_show kobj attr = (-EIO_errno, kobj, 0)) ∧
      (attr.store_cb = none →
        btrfs_kobject_attr_store kobj attr buf len = (-EIO_errno, kobj, 0)) := by
  constructor
  · intro hs; simp [btrfs_kobject_attr_show, hs]
  · intro ht; simp [btrfs_kobject_attr_store, ht]

/-- witness for the amended C3 at the source attribute `num_devices`. -/
theorem btrfs_attr_missing_callback_fails_eio_witness :
    btrfs_kobject_attr_show ⟨"info", 1, none⟩ btrfs_attr_num_devices =
        (-EIO_errno, ⟨"info", 1, none⟩, 0) ∧
      btrfs_kobject_attr_store ⟨"info", 1, none⟩ btrfs_attr_num_devices "1" 1 =
        (-EIO_errno, ⟨"info", 1, none⟩, 0) :=
  ⟨(btrfs_attr_missing_callback_fails_eio ⟨"info", 1, none⟩ btrfs_attr_num_devices "1" 1).1 rfl,
   (btrfs_attr_missing_callback_fails_eio ⟨"info", 1, none⟩ btrfs_attr_num_devices "1" 1).2 rfl⟩

/-- C6: every dispatch invokes at most one domain callback, and when a
callback is present its result — bytes count or failure — is returned to
the caller verbatim with exactly one invocation (so a failing callback is
never retried). -/
theorem btrfs_dispatch_single_callback_verbatim (kobj : BtrfsKobject)
    (attr : BtrfsKobjectAttr) (buf : String) (len : Nat) :
    (btrfs_kobject_attr_show kobj attr).2.2 ≤ 1 ∧
      (btrfs_kobject_attr_store kobj attr buf len).2.2 ≤ 1 ∧
      (∀ f, attr.show_cb = some f →
        btrfs_kobject_attr_show kobj attr = ((f kobj).1, (f kobj).2, 1)) ∧
      (∀ g, attr.store_cb = some g →
        btrfs_kobject_attr_store kobj attr buf len =
          ((g kobj buf len).1, (g kobj buf len).2, 1)) := by
  refine ⟨?_, ?_, ?_, ?_⟩
  · cases hs : attr.show_cb <;> simp [btrfs_kobject_attr_show, hs]
  · cases ht : attr.store_cb <;> simp [btrfs_kobject_attr_store, ht]
  · intro f hf; simp [btrfs_kobject_attr_show, hf]
  · intro g hg; simp [btrfs_kobject_attr_store, hg]

/-- a concrete always-failing show callback, used to witness C6. -/
def failingShow : ShowCb := fun k => (-7, k)

/-- a concrete always-failing store callback, used to witness C6. -/
def failingStore : StoreCb := fun k _ _ => (-9, k)

/-- an attribute whose callbacks always fail, used to witness C6. -/
def btrfs_attr_failing : BtrfsKobjectAttr :=
  BTRFS_ATTR "failing" 0o644 (some failingShow) (some failingStore)

/-- witness for C6: a failing callback's error is passed through verbatim
with exactly one invocation. -/
theorem btrfs_dispatch_single_callback_verbatim_witness :
    btrfs_kobject_attr_show ⟨"x", 1, none⟩ btrfs_attr_failing =
        (-7, ⟨"x", 1, none⟩, 1) ∧
      btrfs_kobject_attr_store ⟨"x", 1, none⟩ btrfs_attr_failing "v" 1 =
        (-9, ⟨"x", 1, none⟩, 1) :=
  ⟨(btrfs_dispatch_single_callback_verbatim ⟨"x", 1, none⟩ btrfs_attr_failing "v" 1).2.2.1
      failingShow rfl,
   (btrfs_dispatch_single_callback_verbatim ⟨"x", 1, none⟩ btrfs_attr_failing "v" 1).2.2.2
      failingStore rfl⟩

/-- C9: `btrfs_create_device` returns 0 for every input — the result of
publishing the device node is discarded, a publish failure is still
reported as success (with the registry untouched, no rollback needed or
performed), and the `-EINVAL` error branch is unreachable. -/
theorem btrfs_create_device_always_returns_zero (label : String)
    (devicesId : Nat) (publishOk : Bool) (reg : Registry) :
    (btrfs_create_device label devicesId publishOk reg).1 = 0 ∧
      (btrfs_create_device label devicesId false reg).2 = reg ∧
      (btrfs_create_device label devicesId publishOk reg).1 ≠ -EINVAL_errno := by
  refine ⟨rfl, ?_, by simp [btrfs_create_device, EINVAL_errno]⟩
  simp [btrfs_create_device, kobject_init_and_add]

/-- C7: a successful create returns an owned handle (the fresh identifier),
the new node has refcount 1, the default (zeroed) payload and the given
parent, and it is inserted into the registry's roots when parentless,
otherwise into the given parent's children. -/
theorem btrfs_kobject_create_success (n : String) (ktype : KobjType)
    (parent : Option Nat) (reg : Registry) :
    (btrfs_kobject_create n ktype parent true reg).1 = some reg.nextId ∧
      (btrfs_kobject_create n ktype parent true reg).2.find reg.nextId =
        some ⟨⟨n, 1, none⟩, ktype, parent⟩ ∧
      (match parent with
        | none => reg.nextId ∈ (btrfs_kobject_create n ktype parent true reg).2.roots
        | some pid =>
            reg.nextId ∈ (btrfs_kobject_create n ktype parent true reg).2.childrenOf pid) := by
  refine ⟨?_, ?_, ?_⟩
  · simp [btrfs_kobject_create, kobject_init_and_add]
  · simp [btrfs_kobject_create, kobject_init_and_add, Registry.find]
  · cases parent with
    | none => simp [btrfs_kobject_create, kobject_init_and_add]
    | some pid =>
      simp [btrfs_kobject_create, kobject_init_and_add, Registry.childrenOf,
        List.filter_cons]

/-- a ktype with two attributes of the same name "x", as the source's macro
machinery happily produces; used for C4. -/
def btrfs_ktype_dup : KobjType :=
  ⟨[BTRFS_ATTR "x" 0o444 none none, BTRFS_ATTR "x" 0o444 none none]⟩

/-- C4 counterexample: a NodeType with two attributes named "x" fails the
specification's declaration-time validation, yet the source constructs it
without any error and a Node of that type is created and registered. -/
theorem btrfs_nodetype_no_validation_counterexample :
    spec_nodeTypeValid btrfs_ktype_dup = false ∧
      (btrfs_kobject_create "dup" btrfs_ktype_dup none true Registry.empty).1 = some 0 :=
  ⟨by decide, rfl⟩

/-- C4 amended: NodeType construction is unvalidated — even a type the
specification's validator rejects (duplicate attribute names, or a
writable attribute without a `store` callback) is declared without error,
and Nodes of it can be created and registered into the tree. -/
theorem btrfs_nodetype_construction_unvalidated (attrs : List BtrfsKobjectAttr)
    (n : String) (reg : Registry) (h : spec_nodeTypeValid ⟨attrs⟩ = false) :
    (btrfs_kobject_create n ⟨attrs⟩ none true reg).1 = some reg.nextId := by
  simp [btrfs_kobject_create, kobject_init_and_add]

/-- witness for the amended C4 at the duplicate-name attribute list. -/
theorem btrfs_nodetype_construction_unvalidated_witness :
    (btrfs_kobject_create "dup2" btrfs_ktype_dup none true Registry.empty).1 = some 0 :=
  btrfs_nodetype_construction_unvalidated
    [BTRFS_ATTR "x" 0o444 none none, BTRFS_ATTR "x" 0o444 none none]
    "dup2" Registry.empty (by decide)

/-- C1 (code bug): forcing the `health` creation to fail during the
bootstrap returns `-EINVAL` but does NOT roll back `devices`: the error
label destroys the failed (NULL) `health` handle instead of the previously
created `devices`, so afterwards the roots still contain `devices` (live,
refcount 1) and no release callback ever fired — rollback is partial, not
total, contradicting the all-or-nothing contract. -/
theorem btrfs_static_init_health_failure_not_atomic :
    (btrfs_static_init_sysfs true false true Registry.empty).1 = -EINVAL_errno ∧
      (btrfs_static_init_sysfs true false true Registry.empty).2.roots = [0] ∧
      ((btrfs_static_init_sysfs true false true Registry.empty).2.find 0).map
          (fun nd => (nd.kobj.name, nd.kobj.refcount, nd.parent)) =
        some ("devices", 1, none) ∧
      (btrfs_static_init_sysfs true false true Registry.empty).2.released = [] :=
  ⟨rfl, rfl, rfl, rfl⟩

/-- C10: when the kset registration succeeds but the root-node bootstrap
fails, `btrfs_init_sysfs` reports the failure yet leaves the top-level kset
registered — no unregistration happens on that failure path. -/
theorem btrfs_init_sysfs_failure_leaves_kset_registered (pubDevices pubHealth pubInfo : Bool)
    (h : (btrfs_init_sysfs true pubDevices pubHealth pubInfo).1 ≠ 0) :
    (btrfs_init_sysfs true pubDevices pubHealth pubInfo).2.ksetRegistered = true := by
  cases pubDevices <;> cases pubHealth <;> cases pubInfo <;> rfl

/-- witness for C10: health-publish failure makes the bootstrap fail while
the kset stays registered. -/
theorem btrfs_init_sysfs_failure_leaves_kset_registered_witness :
    (btrfs_init_sysfs true true false true).1 ≠ 0 ∧
      (btrfs_init_sysfs true true false true).2.ksetRegistered = true :=
  ⟨by decide, btrfs_init_sysfs_failure_leaves_kset_registered true false true (by decide)⟩

theorem detachChild_fst (id : Nat) (p : Nat × Node) : (detachChild id p).1 = p.1 := by
  unfold detachChild
  split <;> rfl

theorem find?_detach_filter (l : List (Nat × Node)) (id cid : Nat) (h : cid ≠ id) :
    ((l.filter (fun p => p.1 != id)).map (detachChild id)).find? (fun p => p.1 == cid) =
      (l.find? (fun p => p.1 == cid)).map (detachChild id) := by
  induction l with
  | nil => simp
  | cons hd tl ih =>
    by_cases h1 : hd.1 = cid
    · have h2 : (hd.1 != id) = true := by simp [h1, h]
      rw [List.filter_cons]
      rw [h2]
      simp only [if_true, List.map_cons]
      rw [List.find?_cons_of_pos _ (by simp [detachChild_fst, h1]),
        List.find?_cons_of_pos _ (by simp [h1])]
      rfl
    · by_cases h2 : hd.1 = id
      · rw [List.filter_cons]
        have h3 : (hd.1 != id) = false := by simp [h2]
        rw [h3]
        simp only [Bool.false_eq_true, if_false]
        rw [List.find?_cons_of_neg _ (by simp [h1]), ih]
      · rw [List.filter_cons]
        have h3 : (hd.1 != id) = true := by simp [h2]
        rw [h3]
        simp only [if_true, List.map_cons]
        rw [List.find?_cons_of_neg _ (by simp [detachChild_fst, h1]),
          List.find?_cons_of_neg _ (by simp [h1]), ih]

/-- C8: destroying a node that still has a live child is permitted and is
not cascaded — when the parent's last reference is dropped, a child with
nonzero refcount survives unchanged except for its parent link (it becomes
detached), it is not itself destroyed, and only the parent's release
fires. -/
theorem btrfs_destroy_detaches_children (reg : Registry) (pid cid : Nat)
    (p c : Node) (hp : reg.find pid = some p) (hrc : p.kobj.refcount ≤ 1)
    (hc : reg.find cid = some c) (hpar : c.parent = some pid) (hne : cid ≠ pid) :
    (btrfs_kobject_destroy pid reg).find cid = some { c with parent := none } ∧
      (btrfs_kobject_destroy pid reg).released = reg.released ++ [pid] := by
  unfold btrfs_kobject_destroy
  rw [hp]
  simp only [if_pos hrc]
  constructor
  · unfold Registry.find at hc ⊢
    simp only
    rw [find?_detach_filter reg.nodes pid cid hne]
    obtain ⟨pr, hfind, hpr2⟩ := Option.map_eq_some'.mp hc
    rw [hfind]
    simp only [Option.map_some', Option.some.injEq]
    unfold detachChild
    rw [hpr2, hpar]
    simp
  · trivial

/-- the registry after creating root `devices` (identifier 0) and its child
`sda` (identifier 1); used to witness C8. -/
def regDevSda : Registry :=
  (btrfs_kobject_create "sda" btrfs_ktype_device (some 0) true
    (btrfs_kobject_create "devices" btrfs_ktype_devices none true Registry.empty).2).2

/-- witness for C8: destroying `devices` leaves `sda` live (refcount 1)
and detached, with only `devices` released. -/
theorem btrfs_destroy_detaches_children_witness :
    (btrfs_kobject_destroy 0 regDevSda).find 1 =
        some ⟨⟨"sda", 1, none⟩, btrfs_ktype_device, none⟩ ∧
      (btrfs_kobject_destroy 0 regDevSda).released = [0] :=
  btrfs_destroy_detaches_children regDevSda 0 1
    ⟨⟨"devices", 1, none⟩, btrfs_ktype_devices, none⟩
    ⟨⟨"sda", 1, none⟩, btrfs_ktype_device, some 0⟩
    rfl (by decide) rfl rfl (by decide)

end BtrfsSysfs
